import Mathlib

/-!
Shallow embedding of `googledataprocauthenticator/google.py` (the GoogleAuth
sparkmagic authenticator module).

External effects (subprocess invocations of the gcloud tool, JSON parsing,
`google.auth.default`, the Dataproc control-plane call, token refresh) are
modelled as oracles packaged in environment structures; each Python function
becomes a Lean function of its environment.  Python exceptions become an
explicit error type `Err`, with `Except Err _` results; where a Python method
mutates state before raising, the embedding returns the mutated state next to
an `Option Err`.
-/

/-- The exception classes the module can raise or let escape, by kind.
`badUserConfiguration` is sparkmagic's `BadUserConfigurationException` (the
configuration error); `userAccessToken` is `google.auth.exceptions.UserAccessTokenError`
(the access-token error); the rest model exception kinds of the Python runtime
and external libraries that the module does not catch on the relevant paths. -/
inductive Err where
  | badUserConfiguration (msg : String)
  | userAccessToken (msg : String)
  | jsonDecodeError
  | defaultCredentialsError
  | attributeError (msg : String)
  | typeError
  | apiCallError
  | keyError
deriving DecidableEq, Repr

/-- Failure of `subprocess.check_output`: the kinds caught by the module
(`subprocess.CalledProcessError`, `OSError`, `IOError`). -/
inductive SubprocErr where
  | calledProcessError
  | osError
  | ioError
deriving DecidableEq, Repr

/-- `google.oauth2.credentials.Credentials`, reduced to the fields the module
reads: a validity flag, a bearer token value, and the scopes it was built with. -/
structure Credentials where
  valid : Bool
  token : String
  scopes : List String
deriving DecidableEq, Repr

/-- The fixed scope list assigned to `self.scopes` in `GoogleAuth.__init__`. -/
def google_auth_scopes : List String :=
  ["https://www.googleapis.com/auth/cloud-platform",
   "https://www.googleapis.com/auth/userinfo.email"]

/-- Python `dict` update `d[k] = v` on an association list kept in insertion
order: overwrite the value at an existing key, else append the new pair. -/
def dictInsert (l : List (String × String)) (k v : String) : List (String × String) :=
  if l.any (fun p => p.1 = k) then
    l.map (fun p => if p.1 = k then (k, v) else p)
  else
    l ++ [(k, v)]

/-- Python `d[k]` lookup on an association list (first match). -/
def dictGet (l : List (String × String)) (k : String) : Option String :=
  match l.find? (fun p => p.1 = k) with
  | some p => some p.2
  | none => none

/-- `list_accounts_pairs(credentialed_accounts, default_credentials_configured)`:
builds the dict mapping every credentialed account to itself and, when default
credentials are configured, adds the `'default-credentials'` entry.  Since every
value equals its key, the Python dict is represented as the finite set of its
(key, value) pairs; the conditional `accounts_dict['default-credentials'] = ...`
assignment is a set insertion (overwriting an equal pair is a no-op). -/
def list_accounts_pairs (credentialed_accounts : Finset String)
    (default_credentials_configured : Bool) : Finset (String × String) :=
  let accounts_dict := credentialed_accounts.image (fun account => (account, account))
  if default_credentials_configured then
    insert ("default-credentials", "default-credentials") accounts_dict
  else
    accounts_dict

/-- The key set of an account dict (Python `key in accounts_dict`). -/
def dictKeys (d : Finset (String × String)) : Finset String :=
  d.image Prod.fst

/-- One element of the JSON array printed by `gcloud auth list --format json`:
an object with an `account` and a `status` field. -/
structure AccountEntry where
  account : String
  status : String
deriving DecidableEq, Repr

/-- Environment for `list_credentialed_accounts`:
* `checkOutput` — outcome of `subprocess.check_output(("gcloud", "auth", "list",
  "--format", "json"))`: the raw output, or one of the caught failure kinds;
* `jsonParse` — outcome of `json.loads` on that output (`.error` is a
  `json.JSONDecodeError`, which the function does not catch);
* `getAuthAccessToken` — outcome of `_cloud_sdk.get_auth_access_token(account)`
  per account name (`.error` is a `UserAccessTokenError`). -/
structure ListEnv where
  checkOutput : Except SubprocErr String
  jsonParse : String → Except Unit (List AccountEntry)
  getAuthAccessToken : String → Except Unit String

/-- Loop body of `list_credentialed_accounts`: state is the accumulated
`credentialed_accounts` set and the current `active_account`.  The token probe
runs first; on `UserAccessTokenError` the whole body is skipped. -/
def listAccountsStep (env : ListEnv) (st : Finset String × Option String)
    (entry : AccountEntry) : Finset String × Option String :=
  match env.getAuthAccessToken entry.account with
  | .error _ => st
  | .ok _ =>
      (insert entry.account st.1,
       if entry.status = "ACTIVE" then some entry.account else st.2)

/-- `list_credentialed_accounts()`: runs `gcloud auth list`, parses the JSON,
and folds over the listed accounts; a subprocess failure is translated into
`BadUserConfigurationException("Gcloud cannot be invoked.")`, a JSON decode
failure propagates uncaught, and per-account token failures only skip that
account. -/
def list_credentialed_accounts (env : ListEnv) :
    Except Err (Finset String × Option String) :=
  match env.checkOutput with
  | .error _ => .error (.badUserConfiguration "Gcloud cannot be invoked.")
  | .ok accounts_json =>
      match env.jsonParse accounts_json with
      | .error _ => .error .jsonDecodeError
      | .ok all_accounts =>
          .ok (all_accounts.foldl (listAccountsStep env) (∅, none))

/-- The message of the `UserAccessTokenError` raised by
`get_credentials_for_account`. -/
def couldNotObtainMsg (account : String) : String :=
  "Could not obtain access token for " ++ account

/-- Abstract parsed JSON document returned by `json.loads` on the output of
`gcloud auth describe ACCOUNT --format json`. -/
structure AccountInfo where
  raw : String
deriving DecidableEq, Repr

/-- Environment for `get_credentials_for_account`:
* `checkOutput` — outcome of `subprocess.check_output(("gcloud", "auth",
  "describe", account, "--format", "json"))` as a function of the account;
* `jsonParse` — outcome of `json.loads` (`.error` is a `json.JSONDecodeError`);
* `fromAuthorizedUserInfo` — outcome of
  `Credentials.from_authorized_user_info(info, scopes)` (`.error` is the
  `ValueError` it raises when the JSON lacks the authorized-user fields). -/
structure DescribeEnv where
  checkOutput : String → Except SubprocErr String
  jsonParse : String → Except Unit AccountInfo
  fromAuthorizedUserInfo : AccountInfo → List String → Except Unit Credentials

/-- `get_credentials_for_account(account, scopes_list)`: runs
`gcloud auth describe`, parses the JSON and builds a `Credentials`; every
failure kind it catches (`subprocess.CalledProcessError`, `OSError`, `IOError`,
`ValueError`, `json.JSONDecodeError`) is re-raised as
`UserAccessTokenError(f"Could not obtain access token for {account}")`. -/
def get_credentials_for_account (env : DescribeEnv) (account : String)
    (scopes_list : List String) : Except Err Credentials :=
  match env.checkOutput account with
  | .error _ => .error (.userAccessToken (couldNotObtainMsg account))
  | .ok account_json =>
      match env.jsonParse account_json with
      | .error _ => .error (.userAccessToken (couldNotObtainMsg account))
      | .ok account_describe =>
          match env.fromAuthorizedUserInfo account_describe scopes_list with
          | .error _ => .error (.userAccessToken (couldNotObtainMsg account))
          | .ok creds => .ok creds

/-- Locates the first `"://"` scheme marker in a character list, returning the
characters before it and the characters after it. -/
def findSchemeMarker : List Char → Option (List Char × List Char)
  | [] => none
  | c :: rest =>
      if c = ':' ∧ rest.take 2 = ['/', '/'] then
        some ([], rest.drop 2)
      else
        (findSchemeMarker rest).map (fun p => (c :: p.1, p.2))

/-- The result of `urllib3.util.parse_url`, reduced to the two attributes the
module reads: the scheme (absent when the URL has no `"://"` marker) and the
network location. -/
structure ParsedUrl where
  scheme : Option String
  netloc : String
deriving DecidableEq, Repr

/-- Characters at which the authority component ends. -/
def netlocEnd (c : Char) : Bool :=
  c = '/' ∨ c = '?' ∨ c = '#'

/-- Model of the external `urllib3.util.parse_url` for the attributes used by
`get_component_gateway_url`: the scheme is the part before the first `"://"`,
and the netloc is the authority that follows, up to the first `/`, `?` or `#`. -/
def parse_url (url : String) : ParsedUrl :=
  match findSchemeMarker url.toList with
  | some (schemeChars, restChars) =>
      ⟨some (String.mk schemeChars), String.mk (restChars.takeWhile (fun c => ¬ netlocEnd c))⟩
  | none =>
      ⟨none, String.mk (url.toList.takeWhile (fun c => ¬ netlocEnd c))⟩

/-- Python `f"{x}"` on an optional string: `None` prints as `"None"`. -/
def pyStr (o : Option String) : String :=
  match o with
  | some s => s
  | none => "None"

/-- `response.config.endpoint_config.http_ports`: the dict of named HTTP ports,
as an association list in insertion order. -/
structure EndpointConfig where
  http_ports : List (String × String)
deriving DecidableEq, Repr

/-- `response.config`, reduced to the endpoint configuration. -/
structure ClusterConfig where
  endpoint_config : EndpointConfig
deriving DecidableEq, Repr

/-- The cluster description returned by `ClusterControllerClient.get_cluster`. -/
structure Cluster where
  config : ClusterConfig
deriving DecidableEq, Repr

/-- Environment for `get_component_gateway_url`: the outcome of the
control-plane call `client.get_cluster(project_id, region, cluster_name)`
(errors are `GoogleAPICallError` / `RetryError` / `ValueError`, which the
function re-raises unchanged). -/
structure GatewayEnv where
  get_cluster : String → String → String → Except Err Cluster

/-- Python `dict.popitem()`: removes and returns the last-inserted item;
raises `KeyError` on an empty dict.  Only the returned item is modelled, as
the dict is not used afterwards. -/
def popitem (l : List (String × String)) : Except Err (String × String) :=
  match l.getLast? with
  | some p => .ok p
  | none => .error .keyError

/-- `get_component_gateway_url(project_id, region, cluster_name, credentials)`:
fetches the cluster description, takes one HTTP-port entry's URL via
`popitem()[1]`, and rebuilds
`f"{parsed_uri.scheme}://{parsed_uri.netloc}/" + "gateway/default/livy/v1"`.
All failures propagate unchanged (`except: raise`). -/
def get_component_gateway_url (env : GatewayEnv) (project_id region cluster_name : String)
    (_credentials : Credentials) : Except Err String :=
  match env.get_cluster project_id region cluster_name with
  | .error e => .error e
  | .ok response =>
      match popitem response.config.endpoint_config.http_ports with
      | .error e => .error e
      | .ok item =>
          let parsed_uri := parse_url item.2
          .ok (pyStr parsed_uri.scheme ++ "://" ++ parsed_uri.netloc ++ "/" ++ "gateway/default/livy/v1")

/-- Outcome of `google.auth.default(scopes=...)`: on success a credentials
object (possibly `None`, hence `Option`) and a project id (possibly `None`);
`.error` is a `DefaultCredentialsError`. -/
def DefaultOutcome := Except Unit (Option Credentials × Option String)

/-- `application_default_credentials_configured()`: true iff
`google.auth.default` succeeds and yields a non-`None` credentials object;
any exception is swallowed into `False`. -/
def application_default_credentials_configured (googleAuthDefault : DefaultOutcome) : Bool :=
  match googleAuthDefault with
  | .error _ => false
  | .ok (credentials, _) => credentials.isSome

/-- The widget state built by `get_widgets`, reduced to the values the module
later reads: the three text inputs and the account dropdown (its current value
and disabled flag). -/
structure Widgets where
  project_value : String
  region_value : String
  cluster_value : String
  account_value : Option String
  account_disabled : Bool
deriving DecidableEq, Repr

/-- The mutable attribute state of a `GoogleAuth` instance, reduced to the
attributes its methods read: the enumerated accounts, the selected identity
(`self.active_credentials`), the default-credentials flag, the credentials and
project (`None` modelled as `none`), the endpoint URL `self.url` (assigned by
the external base `Authenticator.__init__` and overwritten by
`update_with_widget_values`), `self.__class__.__name__`, and the widgets. -/
structure GoogleAuthState where
  credentialed_accounts : Finset String
  active_credentials : Option String
  default_credentials_configured : Bool
  credentials : Option Credentials
  project : Option String
  url : String
  className : String
  widgets : Widgets
deriving DecidableEq

/-- `parsed_attributes`, reduced to the `account` field the constructor reads. -/
structure ParsedAttributes where
  account : String
deriving DecidableEq, Repr

/-- Environment for `GoogleAuth.__init__`: the enumeration oracles, the single
`google.auth.default` outcome (used both by the configured-probe and by the
resolution assignments), the describe oracles, and the `self.url` value the
external base-class `Authenticator.__init__` assigns. -/
structure InitEnv where
  listEnv : ListEnv
  googleAuthDefault : DefaultOutcome
  describeEnv : DescribeEnv
  base_url : String

/-- Instrumentation of a construction run: how many credential-resolution
calls were made, separated into `google.auth.default` resolution assignments
(`self.credentials, self.project = google.auth.default(...)`) and
`get_credentials_for_account` calls.  The read-only
`application_default_credentials_configured` probe is not a resolution call
and is not counted. -/
structure InitTrace where
  defaultResolutionCalls : Nat
  resolverCalls : Nat
deriving DecidableEq, Repr

/-- The fixed part of the unrecognized-account message, following the account
name. -/
def notCredentialedSuffix : String :=
  " is not a credentialed account. Run `gcloud auth login` in " ++
  "your command line to authorize gcloud to access the Cloud Platform with Google user " ++
  "credentials to authenticate. Run `gcloud auth application-default login` acquire new " ++
  "user credentials to use for Application Default Credentials. Run `gcloud auth list` to see " ++
  "your credentialed accounts."

/-- The message of the `BadUserConfigurationException` raised by
`GoogleAuth.__init__` for an unrecognized explicit account. -/
def notCredentialedMsg (account : String) : String :=
  account ++ notCredentialedSuffix

/-- Builds the attribute state reached at the end of a successful
`GoogleAuth.__init__`, including the widget state produced by `get_widgets`
(empty text inputs; the account dropdown preset to the active identity, or
disabled when there is none). -/
def mkInitState (env : InitEnv) (credentialed_accounts : Finset String)
    (dcc : Bool) (active : Option String) (credentials : Option Credentials)
    (project : Option String) : GoogleAuthState :=
  { credentialed_accounts := credentialed_accounts
    active_credentials := active
    default_credentials_configured := dcc
    credentials := credentials
    project := project
    url := env.base_url
    className := "GoogleAuth"
    widgets :=
      { project_value := ""
        region_value := ""
        cluster_value := ""
        account_value := active
        account_disabled := active.isNone } }

/-- `GoogleAuth.__init__(parsed_attributes)`: enumerates accounts, probes
default credentials, builds the account dict, and selects the initial identity
(explicit parameter > default credentials > active CLI account > none),
resolving credentials accordingly.  Returns the instrumentation trace next to
the outcome (the trace reflects the resolution calls made before an error). -/
def googleAuthInit (env : InitEnv) (parsed_attributes : Option ParsedAttributes) :
    InitTrace × Except Err GoogleAuthState :=
  match list_credentialed_accounts env.listEnv with
  | .error e => (⟨0, 0⟩, .error e)
  | .ok (credentialed_accounts, active_user_account) =>
      let dcc := application_default_credentials_configured env.googleAuthDefault
      let account_dict := list_accounts_pairs credentialed_accounts dcc
      match parsed_attributes with
      | some p =>
          if p.account ∈ dictKeys account_dict then
            if p.account = "default-credentials" ∧ dcc then
              match env.googleAuthDefault with
              | .error _ => (⟨1, 0⟩, .error .defaultCredentialsError)
              | .ok (credentials, project) =>
                  (⟨1, 0⟩, .ok (mkInitState env credentialed_accounts dcc
                    (some p.account) credentials project))
            else
              match get_credentials_for_account env.describeEnv p.account google_auth_scopes with
              | .error e => (⟨0, 1⟩, .error e)
              | .ok credentials =>
                  (⟨0, 1⟩, .ok (mkInitState env credentialed_accounts dcc
                    (some p.account) (some credentials) none))
          else
            (⟨0, 0⟩, .error (.badUserConfiguration (notCredentialedMsg p.account)))
      | none =>
          if dcc then
            match env.googleAuthDefault with
            | .error _ => (⟨1, 0⟩, .error .defaultCredentialsError)
            | .ok (credentials, project) =>
                (⟨1, 0⟩, .ok (mkInitState env credentialed_accounts dcc
                  (some "default-credentials") credentials project))
          else
            match active_user_account with
            | some account =>
                match get_credentials_for_account env.describeEnv account google_auth_scopes with
                | .error e => (⟨0, 1⟩, .error e)
                | .ok credentials =>
                    (⟨0, 1⟩, .ok (mkInitState env credentialed_accounts dcc
                      (some account) (some credentials) none))
            | none =>
                (⟨0, 0⟩, .ok (mkInitState env credentialed_accounts dcc none none none))

/-- Environment for the credential re-selection helper: the
`google.auth.default` outcome and the describe oracles. -/
structure SelectEnv where
  googleAuthDefault : DefaultOutcome
  describeEnv : DescribeEnv

/-- `initialize_credentials_with_auth_account_selection(account)`: when the
dropdown value differs from the active identity, re-resolves `self.credentials`
(and, for default credentials, `self.project`).  The dropdown value may be
`None`; passing `None` on to the subprocess command raises a `TypeError` that
the describe helper does not catch.  Returns the state after any mutation,
next to the raised exception if one escapes. -/
def selectCredentialsWithAccount (env : SelectEnv) (st : GoogleAuthState)
    (account : Option String) : GoogleAuthState × Option Err :=
  if account ≠ st.active_credentials then
    if account = some "default-credentials" then
      match env.googleAuthDefault with
      | .error _ => (st, some .defaultCredentialsError)
      | .ok (credentials, project) =>
          ({ st with credentials := credentials, project := project }, none)
    else
      match account with
      | some a =>
          match get_credentials_for_account env.describeEnv a google_auth_scopes with
          | .error e => (st, some e)
          | .ok credentials => ({ st with credentials := some credentials }, none)
      | none => (st, some .typeError)
  else
    (st, none)

/-- The message of the `BadUserConfigurationException` raised by
`update_with_widget_values` when no credentials are available. -/
def noCredentialsMsg : String :=
  "Failed to obtain access token. Run `gcloud auth login` in your command line " ++
  "to authorize gcloud to access the Cloud Platform with Google user credentials to " ++
  "authenticate. Run `gcloud auth application-default login` acquire new user " ++
  "credentials to use for Application Default Credentials."

/-- Environment for `update_with_widget_values`: the gateway-resolution oracle
plus the re-selection oracles. -/
structure UpdateEnv where
  gatewayEnv : GatewayEnv
  googleAuthDefault : DefaultOutcome
  describeEnv : DescribeEnv

/-- `update_with_widget_values()`: with no credentials, raises the
no-credentials `BadUserConfigurationException` without touching `self.url`;
otherwise calls `get_component_gateway_url` on the current widget values,
stores the result in `self.url` (failures re-raised unchanged, `self.url` then
untouched), and finally re-selects credentials from the dropdown value.
Returns how many times the endpoint resolver was invoked, the state after the
method (including mutations made before an escaping exception), and the raised
exception if any. -/
def update_with_widget_values (env : UpdateEnv) (st : GoogleAuthState) :
    Nat × GoogleAuthState × Option Err :=
  match st.credentials with
  | some credentials =>
      match get_component_gateway_url env.gatewayEnv st.widgets.project_value
          st.widgets.region_value st.widgets.cluster_value credentials with
      | .error e => (1, st, some e)
      | .ok u =>
          let st1 := { st with url := u }
          let sel := selectCredentialsWithAccount ⟨env.googleAuthDefault, env.describeEnv⟩
            st1 st1.widgets.account_value
          (1, sel.1, sel.2)
  | none => (0, st, some (.badUserConfiguration noCredentialsMsg))

/-- The outbound request object: a mutable `headers` dict. -/
structure Request where
  headers : List (String × String)
deriving DecidableEq, Repr

/-- `GoogleAuth.__call__(request)`: dereferences `self.credentials` (raising
`AttributeError` when it is `None`), refreshes when the credentials are not
valid, then sets `request.headers['Authorization'] = f'Bearer {token}'` and
returns the request.  `refresh` is the oracle for
`self.credentials.refresh(self.callable_request)` (in-place mutation modelled
as the resulting credentials object); the returned `Nat` counts the refresh
calls made by this invocation. -/
def googleAuthCall (refresh : Credentials → Credentials)
    (credentials : Option Credentials) (request : Request) :
    Except Err (Credentials × Request × Nat) :=
  match credentials with
  | none => .error (.attributeError "NoneType object has no attribute valid")
  | some c =>
      let refreshed := if c.valid then (c, 0) else (refresh c, 1)
      .ok (refreshed.1,
        { request with
          headers := dictInsert request.headers "Authorization"
            ("Bearer " ++ refreshed.1.token) },
        refreshed.2)

/-- `GoogleAuth.__hash__`:
`hash((self.active_credentials, self.url, self.__class__.__name__))`. -/
def googleAuthHash (st : GoogleAuthState) : UInt64 :=
  hash (st.active_credentials, st.url, st.className)

/-- Membership in the self-pairing image underlying an account dict. -/
lemma pair_mem_selfImage (A : Finset String) (x y : String) :
    (x, y) ∈ A.image (fun a => (a, a)) ↔ x ∈ A ∧ y = x := by
  simp only [Finset.mem_image, Prod.mk.injEq]
  constructor
  · rintro ⟨a, ha, rfl, rfl⟩
    exact ⟨ha, rfl⟩
  · intro h
    exact ⟨x, h.1, rfl, h.2.symm⟩

/-- The self-pairing image has the same cardinality as the account set. -/
lemma card_selfImage (A : Finset String) :
    (A.image (fun a => (a, a))).card = A.card :=
  Finset.card_image_of_injective A (fun _ _ h => congrArg Prod.fst h)

/-- C5 (counterexample): the claimed size formula
`|A| + (1 if d else 0)` fails when `"default-credentials"` is itself a listed
account and `d` is true — the dict assignment overwrites, giving size `|A|`. -/
theorem C5_counterexample :
    ¬ ((list_accounts_pairs {"default-credentials"} true).card =
        ({"default-credentials"} : Finset String).card + 1) := by
  decide

/-- C5 (amended): `list_accounts_pairs A d` maps every account of `A` to
itself; it contains the `"default-credentials"` entry iff `d` is true or
`"default-credentials"` is itself in `A`; and its size is
`|A| + (1 if d and "default-credentials" not in A else 0)`. -/
theorem C5_list_accounts_pairs (A : Finset String) (d : Bool) :
    (∀ a ∈ A, (a, a) ∈ list_accounts_pairs A d) ∧
    ((("default-credentials", "default-credentials") ∈ list_accounts_pairs A d) ↔
      (d = true ∨ "default-credentials" ∈ A)) ∧
    (list_accounts_pairs A d).card =
      A.card + (if d = true ∧ "default-credentials" ∉ A then 1 else 0) := by
  cases d with
  | false =>
      refine ⟨fun a ha => ?_, ?_, ?_⟩
      · exact (pair_mem_selfImage A a a).mpr ⟨ha, rfl⟩
      · simp [list_accounts_pairs, pair_mem_selfImage]
      · simp [list_accounts_pairs, card_selfImage]
  | true =>
      have hred : list_accounts_pairs A true =
          insert ("default-credentials", "default-credentials")
            (A.image (fun a => (a, a))) := rfl
      refine ⟨fun a ha => ?_, ?_, ?_⟩
      · rw [hred]
        exact Finset.mem_insert_of_mem ((pair_mem_selfImage A a a).mpr ⟨ha, rfl⟩)
      · simp [hred]
      · rw [hred]
        by_cases hdc : "default-credentials" ∈ A
        · rw [Finset.card_insert_of_mem ((pair_mem_selfImage A _ _).mpr ⟨hdc, rfl⟩)]
          simp [card_selfImage, hdc]
        · rw [Finset.card_insert_of_not_mem
            (fun hmem => hdc ((pair_mem_selfImage A _ _).mp hmem).1)]
          simp [card_selfImage, hdc]

/-- C5 (witness): the amended statement evaluated on `A = {"alice"}, d = true`. -/
theorem C5_witness :
    ("alice", "alice") ∈ list_accounts_pairs {"alice"} true ∧
    (list_accounts_pairs {"alice"} true).card = 2 := by
  constructor
  · exact (C5_list_accounts_pairs {"alice"} true).1 "alice" (by decide)
  · rw [(C5_list_accounts_pairs {"alice"} true).2.2]
    decide

/-- `find?` over a dict after overwriting key `k` finds the new pair whenever
some pair with key `k` was present. -/
lemma find?_map_overwrite (l : List (String × String)) (k v : String) :
    (l.map (fun p => if p.1 = k then (k, v) else p)).find? (fun p => p.1 = k) =
      if l.any (fun p => p.1 = k) then some (k, v) else
        l.find? (fun p => p.1 = k) := by
  induction l with
  | nil => rfl
  | cons hd tl ih =>
      by_cases h : hd.1 = k
      · simp [List.find?, List.any_cons, h, ih]
      · have hdec : (decide (hd.1 = k)) = false := by simp [h]
        simp [List.find?, List.any_cons, hdec, h, ih]
        rw [hdec, Bool.false_or]

/-- `find?` skips a prefix in which nothing matches. -/
lemma find?_append_of_none (l l' : List (String × String))
    (p : String × String → Bool) (h : l.find? p = none) :
    (l ++ l').find? p = l'.find? p := by
  induction l with
  | nil => rfl
  | cons hd tl ih =>
      cases hp : p hd with
      | true =>
          rw [List.find?_cons_of_pos _ hp] at h
          exact Option.noConfusion h
      | false =>
          rw [List.find?_cons_of_neg _ (by simp [hp])] at h
          rw [List.cons_append, List.find?_cons_of_neg _ (by simp [hp])]
          exact ih h

/-- If no pair of the dict has key `k`, `find?` for `k` yields nothing. -/
lemma find?_none_of_not_any (l : List (String × String)) (k : String)
    (h : l.any (fun p => p.1 = k) = false) :
    l.find? (fun p => p.1 = k) = none := by
  rw [List.find?_eq_none]
  intro x hx
  simp only [List.any_eq_false] at h
  exact h x hx

/-- Reading back the key just written with Python dict-update semantics. -/
lemma dictGet_dictInsert (l : List (String × String)) (k v : String) :
    dictGet (dictInsert l k v) k = some v := by
  unfold dictGet dictInsert
  by_cases h : l.any (fun p => p.1 = k)
  · rw [if_pos h, find?_map_overwrite, if_pos h]
  · rw [if_neg h]
    rw [find?_append_of_none _ _ _
      (find?_none_of_not_any l k (Bool.eq_false_iff.mpr h))]
    simp [List.find?]

/-- C1: calling the authenticator with non-null credentials refreshes exactly
once when the credentials report invalid and never when they report valid, and
in both cases returns the request whose headers bind `"Authorization"` to
`"Bearer "` concatenated with the (possibly refreshed) token value. -/
theorem C1_per_request_signing (refresh : Credentials → Credentials)
    (c : Credentials) (request : Request) :
    ∃ c' request' n,
      googleAuthCall refresh (some c) request = .ok (c', request', n) ∧
      (c.valid = true → n = 0 ∧ c' = c) ∧
      (c.valid = false → n = 1 ∧ c' = refresh c) ∧
      request'.headers =
        dictInsert request.headers "Authorization" ("Bearer " ++ c'.token) ∧
      dictGet request'.headers "Authorization" = some ("Bearer " ++ c'.token) := by
  cases hv : c.valid with
  | true =>
      refine ⟨c, { request with headers := dictInsert request.headers "Authorization" ("Bearer " ++ c.token) }, 0, by simp [googleAuthCall, hv], fun _ => ⟨rfl, rfl⟩, by simp [hv], rfl, dictGet_dictInsert ..⟩
  | false =>
      refine ⟨refresh c, { request with headers := dictInsert request.headers "Authorization" ("Bearer " ++ (refresh c).token) }, 1, by simp [googleAuthCall, hv], by simp [hv], fun _ => ⟨rfl, rfl⟩, rfl, dictGet_dictInsert ..⟩

/-- C1 (witness): an invalid credential with token `"tok1"` whose refresh
yields `"tok2"`, signed onto a request with empty headers. -/
theorem C1_witness :
    ∃ c' request' n,
      googleAuthCall (fun cr => ⟨true, "tok2", cr.scopes⟩)
          (some ⟨false, "tok1", []⟩) ⟨[]⟩ = .ok (c', request', n) ∧
      n = 1 ∧
      dictGet request'.headers "Authorization" = some ("Bearer " ++ c'.token) := by
  obtain ⟨c', request', n, heq, -, hinv, -, hget⟩ :=
    C1_per_request_signing (fun cr => ⟨true, "tok2", cr.scopes⟩)
      ⟨false, "tok1", []⟩ ⟨[]⟩
  exact ⟨c', request', n, heq, (hinv rfl).1, hget⟩

/-- C9: the hash of a `GoogleAuth` instance is computed from exactly the
triple (active identity, stored gateway URL, concrete class name): two states
that agree on those three components hash equally, whatever their other
fields hold. -/
theorem C9_hash_from_triple (s1 s2 : GoogleAuthState)
    (h1 : s1.active_credentials = s2.active_credentials)
    (h2 : s1.url = s2.url) (h3 : s1.className = s2.className) :
    googleAuthHash s1 = googleAuthHash s2 := by
  simp [googleAuthHash, h1, h2, h3]

/-- A state with the `"a@b.c"` identity selected but no credentials resolved. -/
def hashStateA : GoogleAuthState :=
  { credentialed_accounts := ∅
    active_credentials := some "a@b.c"
    default_credentials_configured := false
    credentials := none
    project := none
    url := "http://h:1234/gateway/default/livy/v1"
    className := "GoogleAuth"
    widgets := ⟨"", "", "", none, true⟩ }

/-- A state agreeing with `hashStateA` on the hash triple but differing in
every other field. -/
def hashStateB : GoogleAuthState :=
  { credentialed_accounts := {"a@b.c"}
    active_credentials := some "a@b.c"
    default_credentials_configured := true
    credentials := some ⟨true, "tok", google_auth_scopes⟩
    project := some "proj"
    url := "http://h:1234/gateway/default/livy/v1"
    className := "GoogleAuth"
    widgets := ⟨"p", "r", "c", some "a@b.c", false⟩ }

/-- C9 (witness): two concrete states differing in accounts, credentials,
project and widgets but agreeing on the triple hash equally. -/
theorem C9_witness : googleAuthHash hashStateA = googleAuthHash hashStateB :=
  C9_hash_from_triple hashStateA hashStateB rfl rfl rfl

/-- C7: every failure of `get_credentials_for_account` — tool invocation
failure, unparseable JSON, or a credential-shape mismatch — surfaces as the
one `UserAccessTokenError` kind with the same message, and it fails exactly
when one of those three stages fails, so callers cannot tell the causes apart. -/
theorem C7_access_token_error (env : DescribeEnv) (account : String)
    (scopes_list : List String) :
    (∀ e, get_credentials_for_account env account scopes_list = .error e →
      e = .userAccessToken (couldNotObtainMsg account)) ∧
    ((∃ e, get_credentials_for_account env account scopes_list = .error e) ↔
      ((∃ se, env.checkOutput account = .error se) ∨
       (∃ out, env.checkOutput account = .ok out ∧ env.jsonParse out = .error ()) ∨
       (∃ out info, env.checkOutput account = .ok out ∧ env.jsonParse out = .ok info ∧
          env.fromAuthorizedUserInfo info scopes_list = .error ()))) := by
  rcases hco : env.checkOutput account with se | out
  · constructor
    · intro e he
      simp [get_credentials_for_account, hco] at he
      exact he.symm
    · constructor
      · intro _
        exact Or.inl ⟨se, rfl⟩
      · intro _
        exact ⟨.userAccessToken (couldNotObtainMsg account),
          by simp [get_credentials_for_account, hco]⟩
  · rcases hjp : env.jsonParse out with u | info
    · constructor
      · intro e he
        simp [get_credentials_for_account, hco, hjp] at he
        exact he.symm
      · constructor
        · intro _
          exact Or.inr (Or.inl ⟨out, rfl, by simp [hjp]⟩)
        · intro _
          exact ⟨.userAccessToken (couldNotObtainMsg account),
            by simp [get_credentials_for_account, hco, hjp]⟩
    · rcases hfa : env.fromAuthorizedUserInfo info scopes_list with u | creds
      · constructor
        · intro e he
          simp [get_credentials_for_account, hco, hjp, hfa] at he
          exact he.symm
        · constructor
          · intro _
            exact Or.inr (Or.inr ⟨out, info, rfl, hjp, by simp [hfa]⟩)
          · intro _
            exact ⟨.userAccessToken (couldNotObtainMsg account),
              by simp [get_credentials_for_account, hco, hjp, hfa]⟩
      · constructor
        · intro e he
          simp [get_credentials_for_account, hco, hjp, hfa] at he
        · constructor
          · rintro ⟨e, he⟩
            simp [get_credentials_for_account, hco, hjp, hfa] at he
          · rintro (⟨se, hse⟩ | ⟨o, ho, hj⟩ | ⟨o, i, ho, hj, hf⟩)
            · exact Except.noConfusion hse
            · obtain rfl : out = o := Except.ok.inj ho
              rw [hjp] at hj
              exact Except.noConfusion hj
            · obtain rfl : out = o := Except.ok.inj ho
              rw [hjp] at hj
              obtain rfl : info = i := Except.ok.inj hj
              rw [hfa] at hf
              exact Except.noConfusion hf

/-- A describe environment whose `gcloud auth describe` output is not
parseable JSON. -/
def describeEnvBadJson : DescribeEnv :=
  { checkOutput := fun _ => .ok "not json"
    jsonParse := fun _ => .error ()
    fromAuthorizedUserInfo := fun _ _ => .error () }

/-- C7 (witness): with unparseable tool output for account `"a@b.c"`, the
resolver fails with exactly the normalized access-token error. -/
theorem C7_witness :
    get_credentials_for_account describeEnvBadJson "a@b.c" google_auth_scopes =
      .error (.userAccessToken (couldNotObtainMsg "a@b.c")) := by
  have h1 := (C7_access_token_error describeEnvBadJson "a@b.c" google_auth_scopes).1
  have he : get_credentials_for_account describeEnvBadJson "a@b.c" google_auth_scopes =
      .error (.userAccessToken ("Could not obtain access token for " ++ "a@b.c")) := rfl
  rw [he, h1 _ he]

/-- C6: when the fetched cluster description publishes exactly the HTTP port
entry `{"Livy": "http://host:1234"}`, the resolver returns
`"http://host:1234/gateway/default/livy/v1"` — the entry's scheme and host
with the fixed gateway path suffix. -/
theorem C6_component_gateway_url (env : GatewayEnv)
    (project_id region cluster_name : String) (credentials : Credentials)
    (response : Cluster)
    (hresp : env.get_cluster project_id region cluster_name = .ok response)
    (hports : response.config.endpoint_config.http_ports =
      [("Livy", "http://host:1234")]) :
    get_component_gateway_url env project_id region cluster_name credentials =
      .ok "http://host:1234/gateway/default/livy/v1" := by
  simp only [get_component_gateway_url, hresp]
  rw [hports]
  rfl

/-- A gateway environment always returning one Livy HTTP port. -/
def gatewayEnvLivy : GatewayEnv :=
  { get_cluster := fun _ _ _ => .ok ⟨⟨⟨[("Livy", "http://host:1234")]⟩⟩⟩ }

/-- C6 (witness): the resolver evaluated on the one-entry environment. -/
theorem C6_witness :
    get_component_gateway_url gatewayEnvLivy "proj" "region" "cluster"
      ⟨true, "tok", google_auth_scopes⟩ =
      .ok "http://host:1234/gateway/default/livy/v1" :=
  C6_component_gateway_url gatewayEnvLivy "proj" "region" "cluster"
    ⟨true, "tok", google_auth_scopes⟩ ⟨⟨⟨[("Livy", "http://host:1234")]⟩⟩⟩ rfl rfl

/-- An account whose token probe fails never enters the accumulated account
set and never becomes the active account, whatever suffix of the listed
accounts remains to be folded. -/
lemma foldl_excludes_token_failure (env : ListEnv) (n : String)
    (hn : env.getAuthAccessToken n = .error ()) :
    ∀ (accounts : List AccountEntry) (st : Finset String × Option String),
      n ∉ st.1 → st.2 ≠ some n →
      n ∉ (accounts.foldl (listAccountsStep env) st).1 ∧
      (accounts.foldl (listAccountsStep env) st).2 ≠ some n := by
  intro accounts
  induction accounts with
  | nil => exact fun st h1 h2 => ⟨h1, h2⟩
  | cons entry rest ih =>
      intro st h1 h2
      rw [List.foldl_cons]
      apply ih
      · unfold listAccountsStep
        rcases ht : env.getAuthAccessToken entry.account with u | tok
        · exact h1
        · have hne : entry.account ≠ n := by
            intro h
            rw [h, hn] at ht
            exact Except.noConfusion ht
          simp only [Finset.mem_insert]
          rintro (h | h)
          · exact hne h.symm
          · exact h1 h
      · unfold listAccountsStep
        rcases ht : env.getAuthAccessToken entry.account with u | tok
        · exact h2
        · have hne : entry.account ≠ n := by
            intro h
            rw [h, hn] at ht
            exact Except.noConfusion ht
          by_cases hs : entry.status = "ACTIVE"
          · simp only [hs, if_pos rfl]
            intro h
            exact hne (Option.some.inj h)
          · simp only [if_neg hs]
            exact h2

/-- C3: `list_credentialed_accounts` raises the configuration error exactly
when the `gcloud auth list` invocation itself fails; when the tool runs and
its output parses, per-account token failures are never raised — such an
account is only left out of the returned set and is never the active account. -/
theorem C3_enumeration_error_policy (env : ListEnv) :
    ((∃ msg, list_credentialed_accounts env = .error (.badUserConfiguration msg)) ↔
      (∃ se, env.checkOutput = .error se)) ∧
    (∀ out accounts, env.checkOutput = .ok out → env.jsonParse out = .ok accounts →
      ∃ s active, list_credentialed_accounts env = .ok (s, active) ∧
        ∀ entry ∈ accounts, env.getAuthAccessToken entry.account = .error () →
          entry.account ∉ s ∧ active ≠ some entry.account) := by
  constructor
  · rcases hco : env.checkOutput with se | out
    · constructor
      · intro _
        exact ⟨se, rfl⟩
      · intro _
        exact ⟨"Gcloud cannot be invoked.", by simp [list_credentialed_accounts, hco]⟩
    · constructor
      · rintro ⟨msg, hmsg⟩
        rcases hjp : env.jsonParse out with u | accounts <;>
          simp [list_credentialed_accounts, hco, hjp] at hmsg
      · rintro ⟨se, hse⟩
        exact Except.noConfusion hse
  · intro out accounts hco hjp
    refine ⟨(accounts.foldl (listAccountsStep env) (∅, none)).1,
      (accounts.foldl (listAccountsStep env) (∅, none)).2,
      by simp [list_credentialed_accounts, hco, hjp], ?_⟩
    intro entry _ hfail
    exact foldl_excludes_token_failure env entry.account hfail accounts (∅, none)
      (Finset.not_mem_empty _) (by simp)

/-- A list environment in which account `"bad@x"` is listed as active but its
token probe fails, while `"good@x"` is usable. -/
def listEnvMixed : ListEnv :=
  { checkOutput := .ok "listing"
    jsonParse := fun _ => .ok [⟨"bad@x", "ACTIVE"⟩, ⟨"good@x", "INACTIVE"⟩]
    getAuthAccessToken := fun a => if a = "bad@x" then .error () else .ok "tok" }

/-- C3 (witness): on `listEnvMixed`, enumeration succeeds and the
token-failing account is excluded from both the set and the active slot. -/
theorem C3_witness :
    ∃ s active, list_credentialed_accounts listEnvMixed = .ok (s, active) ∧
      "bad@x" ∉ s ∧ active ≠ some "bad@x" := by
  obtain ⟨s, active, heq, hprop⟩ :=
    (C3_enumeration_error_policy listEnvMixed).2 "listing"
      [⟨"bad@x", "ACTIVE"⟩, ⟨"good@x", "INACTIVE"⟩] rfl rfl
  obtain ⟨h1, h2⟩ := hprop ⟨"bad@x", "ACTIVE"⟩ (by simp) (by simp [listEnvMixed])
  exact ⟨s, active, heq, h1, h2⟩

/-- C2: an explicit account parameter outside the computed option set makes
construction fail with the configuration error whose message starts with the
invalid account name, before any credential-resolution call (neither
`google.auth.default` resolution nor `get_credentials_for_account`) is made. -/
theorem C2_invalid_explicit_account (env : InitEnv) (p : ParsedAttributes)
    (accs : Finset String) (active : Option String)
    (henum : list_credentialed_accounts env.listEnv = .ok (accs, active))
    (hnot : p.account ∉ dictKeys (list_accounts_pairs accs
      (application_default_credentials_configured env.googleAuthDefault))) :
    googleAuthInit env (some p) =
      (⟨0, 0⟩, .error (.badUserConfiguration (notCredentialedMsg p.account))) ∧
    notCredentialedMsg p.account = p.account ++ notCredentialedSuffix := by
  constructor
  · simp [googleAuthInit, henum, hnot]
  · rfl

/-- C4: with default credentials configured and no explicit account,
construction picks the `"default-credentials"` identity and takes its
credentials from the one `google.auth.default` resolution call, never calling
`get_credentials_for_account`. -/
theorem C4_default_credentials_selection (env : InitEnv)
    (accs : Finset String) (active : Option String)
    (henum : list_credentialed_accounts env.listEnv = .ok (accs, active))
    (hdcc : application_default_credentials_configured env.googleAuthDefault = true) :
    ∃ credentials project st,
      env.googleAuthDefault = .ok (credentials, project) ∧
      googleAuthInit env none = (⟨1, 0⟩, .ok st) ∧
      st.active_credentials = some "default-credentials" ∧
      st.credentials = credentials := by
  rcases hd : env.googleAuthDefault with u | pr
  · exfalso
    rw [hd] at hdcc
    simp [application_default_credentials_configured] at hdcc
  · rw [hd] at hdcc
    refine ⟨pr.1, pr.2,
      mkInitState env accs true (some "default-credentials") pr.1 pr.2,
      rfl, ?_, rfl, rfl⟩
    simp [googleAuthInit, henum, hd, hdcc]

/-- C10: when construction ends with null credentials (no explicit account,
no default credentials, no active CLI identity), invoking the per-request
callable fails with the null-dereference attribute error, not with the
module's configuration-error kind. -/
theorem C10_null_credentials_call (env : InitEnv) (accs : Finset String)
    (henum : list_credentialed_accounts env.listEnv = .ok (accs, none))
    (hdcc : application_default_credentials_configured env.googleAuthDefault = false) :
    ∃ st, googleAuthInit env none = (⟨0, 0⟩, .ok st) ∧ st.credentials = none ∧
      ∀ refresh request,
        googleAuthCall refresh st.credentials request =
          .error (.attributeError "NoneType object has no attribute valid") ∧
        ∀ msg, googleAuthCall refresh st.credentials request ≠
          .error (.badUserConfiguration msg) := by
  refine ⟨mkInitState env accs false none none none, ?_, rfl, ?_⟩
  · simp [googleAuthInit, henum, hdcc]
  · intro refresh request
    refine ⟨rfl, ?_⟩
    intro msg h
    simp [googleAuthCall, mkInitState] at h

/-- Re-selecting credentials from the dropdown never touches `self.url`. -/
lemma selectCredentials_preserves_url (env : SelectEnv) (st : GoogleAuthState)
    (account : Option String) :
    (selectCredentialsWithAccount env st account).1.url = st.url := by
  unfold selectCredentialsWithAccount
  by_cases h1 : account = st.active_credentials
  · rw [if_neg (not_not_intro h1)]
  · rw [if_pos h1]
    by_cases h2 : account = some "default-credentials"
    · rw [if_pos h2]
      cases hgd : env.googleAuthDefault with
      | error u => rfl
      | ok pr => rfl
    · rw [if_neg h2]
      cases account with
      | none => rfl
      | some a =>
          cases hga : get_credentials_for_account env.describeEnv a google_auth_scopes with
          | error e => simp [hga]
          | ok c => simp [hga]

/-- C8: with null credentials, `update_with_widget_values` raises the log-in
configuration error, never invokes the endpoint resolver, and leaves the
stored URL unchanged; with credentials present it invokes the resolver once
on the current widget values, stores a successful result as `self.url`, and
re-raises a resolver failure unchanged with the state untouched. -/
theorem C8_update_endpoint (env : UpdateEnv) (st : GoogleAuthState) :
    (st.credentials = none →
      update_with_widget_values env st =
        (0, st, some (.badUserConfiguration noCredentialsMsg))) ∧
    (∀ c, st.credentials = some c →
      (update_with_widget_values env st).1 = 1 ∧
      (∀ u, get_component_gateway_url env.gatewayEnv st.widgets.project_value
          st.widgets.region_value st.widgets.cluster_value c = .ok u →
        (update_with_widget_values env st).2.1.url = u) ∧
      (∀ e, get_component_gateway_url env.gatewayEnv st.widgets.project_value
          st.widgets.region_value st.widgets.cluster_value c = .error e →
        update_with_widget_values env st = (1, st, some e))) := by
  constructor
  · intro h
    simp [update_with_widget_values, h]
  · intro c hc
    rcases hg : get_component_gateway_url env.gatewayEnv st.widgets.project_value
        st.widgets.region_value st.widgets.cluster_value c with e | u
    · refine ⟨?_, ?_, ?_⟩
      · simp [update_with_widget_values, hc, hg]
      · intro u hu
        exact Except.noConfusion hu
      · intro e' he
        obtain rfl : e = e' := Except.error.inj he
        simp [update_with_widget_values, hc, hg]
    · refine ⟨?_, ?_, ?_⟩
      · simp [update_with_widget_values, hc, hg]
      · intro u' hu
        obtain rfl : u = u' := Except.ok.inj hu
        simp [update_with_widget_values, hc, hg, selectCredentials_preserves_url]
      · intro e he
        exact Except.noConfusion he

/-- A list environment whose `gcloud auth list` succeeds with no accounts. -/
def emptyListEnv : ListEnv :=
  { checkOutput := .ok "[]"
    jsonParse := fun _ => .ok []
    getAuthAccessToken := fun _ => .ok "tok" }

/-- A describe environment whose tool invocation always fails. -/
def failingDescribeEnv : DescribeEnv :=
  { checkOutput := fun _ => .error .calledProcessError
    jsonParse := fun _ => .error ()
    fromAuthorizedUserInfo := fun _ _ => .error () }

/-- A construction environment with no accounts and no default credentials. -/
def noDefaultInitEnv : InitEnv :=
  { listEnv := emptyListEnv
    googleAuthDefault := .error ()
    describeEnv := failingDescribeEnv
    base_url := "http://localhost:8998/" }

/-- A construction environment with no accounts but with usable default
credentials. -/
def withDefaultInitEnv : InitEnv :=
  { listEnv := emptyListEnv
    googleAuthDefault := .ok (some ⟨true, "tok", google_auth_scopes⟩, some "proj")
    describeEnv := failingDescribeEnv
    base_url := "http://localhost:8998/" }

/-- C2 (witness): account `"bob@x"` against an empty option set. -/
theorem C2_witness :
    googleAuthInit noDefaultInitEnv (some ⟨"bob@x"⟩) =
      (⟨0, 0⟩, .error (.badUserConfiguration (notCredentialedMsg "bob@x"))) :=
  (C2_invalid_explicit_account noDefaultInitEnv ⟨"bob@x"⟩ ∅ none rfl
    (by decide)).1

/-- C4 (witness): construction without an explicit account under
`withDefaultInitEnv`. -/
theorem C4_witness :
    ∃ credentials project st,
      withDefaultInitEnv.googleAuthDefault = .ok (credentials, project) ∧
      googleAuthInit withDefaultInitEnv none = (⟨1, 0⟩, .ok st) ∧
      st.active_credentials = some "default-credentials" ∧
      st.credentials = credentials :=
  C4_default_credentials_selection withDefaultInitEnv ∅ none rfl rfl

/-- C10 (witness): construction under `noDefaultInitEnv` leaves credentials
null and the callable then fails with the attribute error. -/
theorem C10_witness :
    ∃ st, googleAuthInit noDefaultInitEnv none = (⟨0, 0⟩, .ok st) ∧
      st.credentials = none ∧
      ∀ refresh request,
        googleAuthCall refresh st.credentials request =
          .error (.attributeError "NoneType object has no attribute valid") ∧
        ∀ msg, googleAuthCall refresh st.credentials request ≠
          .error (.badUserConfiguration msg) :=
  C10_null_credentials_call noDefaultInitEnv ∅ rfl rfl

/-- An update environment over the one-port gateway with failing credential
oracles. -/
def updateEnvLivy : UpdateEnv :=
  { gatewayEnv := gatewayEnvLivy
    googleAuthDefault := .error ()
    describeEnv := failingDescribeEnv }

/-- C8 (witness): updating `hashStateA`, whose credentials are null, raises
the log-in configuration error with the state unchanged. -/
theorem C8_witness :
    update_with_widget_values updateEnvLivy hashStateA =
      (0, hashStateA, some (.badUserConfiguration noCredentialsMsg)) :=
  (C8_update_endpoint updateEnvLivy hashStateA).1 rfl
